import Mathlib

/-!
Verification of the JmpCPP endian-correct WAVE serialization layer.

This file is a shallow embedding of src/endians.hpp and src/wavefile.hpp.
Machine integers are modelled as natural numbers, with an explicit
reduction modulo 2 to the width wherever the C++ performs an integral
conversion.  The host byte order (probed at runtime by is_big_endian and
is_little_endian in the C++ source) is modelled by a Bool parameter
hostBig: is_big_endian() = hostBig and is_little_endian() = !hostBig,
which covers both byte orders the source distinguishes.
-/

namespace JMP

/-- byteswap for integral types of size 1 (src/endians.hpp, lines 54-57):
swapping the bytes of an 8-bit integer is a no-op. -/
def byteswap8 (i : ℕ) : ℕ := i

/-- byteswap for integral types of size 2 (src/endians.hpp, lines 60-65). -/
def byteswap16 (i : ℕ) : ℕ :=
  ((i &&& 0xFF00) >>> 8) |||
  ((i &&& 0x00FF) <<< 8)

/-- byteswap for integral types of size 4 (src/endians.hpp, lines 68-75). -/
def byteswap32 (i : ℕ) : ℕ :=
  ((i &&& 0xFF000000) >>> 24) |||
  ((i &&& 0x00FF0000) >>> 8) |||
  ((i &&& 0x0000FF00) <<< 8) |||
  ((i &&& 0x000000FF) <<< 24)

/-- byteswap for integral types of size 8 (src/endians.hpp, lines 78-89). -/
def byteswap64 (i : ℕ) : ℕ :=
  ((i &&& 0xFF00000000000000) >>> 56) |||
  ((i &&& 0x00FF000000000000) >>> 40) |||
  ((i &&& 0x0000FF0000000000) >>> 24) |||
  ((i &&& 0x000000FF00000000) >>> 8) |||
  ((i &&& 0x00000000FF000000) <<< 8) |||
  ((i &&& 0x0000000000FF0000) <<< 24) |||
  ((i &&& 0x000000000000FF00) <<< 40) |||
  ((i &&& 0x00000000000000FF) <<< 56)

namespace BigEndian

/-- Constructor BigEndian(T const& i) (src/endians.hpp, line 99): the stored
value is byteswapped exactly when the host is little-endian.  The function
sw is the byteswap instance selected for the integral type T. -/
def mkVal (sw : ℕ → ℕ) (hostBig : Bool) (i : ℕ) : ℕ :=
  if hostBig then i else sw i

/-- Conversion operator T() (src/endians.hpp, lines 101-103). -/
def toNat (sw : ℕ → ℕ) (hostBig : Bool) (v : ℕ) : ℕ :=
  if hostBig then v else sw v

end BigEndian

namespace LittleEndian

/-- Constructor LittleEndian(T const& i) (src/endians.hpp, line 124): the
stored value is byteswapped exactly when the host is big-endian. -/
def mkVal (sw : ℕ → ℕ) (hostBig : Bool) (i : ℕ) : ℕ :=
  if hostBig then sw i else i

/-- Conversion operator T() (src/endians.hpp, lines 126-128). -/
def toNat (sw : ℕ → ℕ) (hostBig : Bool) (v : ℕ) : ℕ :=
  if hostBig then sw v else v

end LittleEndian

/-! Bitwise helper lemmas: masking with a shifted byte mask extracts a byte,
and a bitwise or of values occupying disjoint bit ranges is an addition. -/

theorem and_shifted_mask_shift (x n k : ℕ) :
    x &&& ((2 ^ n - 1) <<< k) = ((x >>> k) % 2 ^ n) <<< k := by
  apply Nat.eq_of_testBit_eq
  intro j
  simp only [Nat.testBit_and, Nat.testBit_shiftLeft, Nat.testBit_mod_two_pow,
    Nat.testBit_shiftRight, Nat.testBit_two_pow_sub_one]
  by_cases hk : k ≤ j
  · have hj : k + (j - k) = j := by omega
    rw [hj]
    have hk2 : decide (j ≥ k) = true := by simpa using hk
    rw [hk2]
    cases x.testBit j <;> cases (decide (j - k < n)) <;> simp
  · have hk2 : decide (j ≥ k) = false := by simpa using hk
    rw [hk2]
    simp

theorem and_shifted_mask (x n k : ℕ) :
    x &&& ((2 ^ n - 1) <<< k) = (x / 2 ^ k % 2 ^ n) * 2 ^ k := by
  rw [and_shifted_mask_shift, Nat.shiftLeft_eq, Nat.shiftRight_eq_div_pow]

theorem lor_mul_two_pow_eq_add (k : ℕ) {a b : ℕ} (h : a < 2 ^ k) :
    a ||| b * 2 ^ k = a + b * 2 ^ k := by
  rw [Nat.lor_comm, Nat.mul_comm b (2 ^ k), ← Nat.mul_add_lt_is_or h b]
  ring

/-! Arithmetic normal forms for the byteswap functions. -/

theorem byteswap16_eq (i : ℕ) :
    byteswap16 i = i / 2 ^ 8 % 2 ^ 8 + (i % 2 ^ 8) * 2 ^ 8 := by
  unfold byteswap16
  have e0 : (i &&& 0xFF00) >>> 8 = i / 2 ^ 8 % 2 ^ 8 := by
    rw [show (0xFF00 : ℕ) = (2 ^ 8 - 1) <<< 8 by decide, and_shifted_mask,
      Nat.shiftRight_eq_div_pow]
    omega
  have e1 : (i &&& 0x00FF) <<< 8 = (i % 2 ^ 8) * 2 ^ 8 := by
    rw [show (0x00FF : ℕ) = 2 ^ 8 - 1 by decide, Nat.and_pow_two_sub_one_eq_mod,
      Nat.shiftLeft_eq]
  rw [e0, e1, lor_mul_two_pow_eq_add 8 (by omega)]

theorem byteswap32_eq (i : ℕ) :
    byteswap32 i = i / 2 ^ 24 % 2 ^ 8 + (i / 2 ^ 16 % 2 ^ 8) * 2 ^ 8 +
      (i / 2 ^ 8 % 2 ^ 8) * 2 ^ 16 + (i % 2 ^ 8) * 2 ^ 24 := by
  unfold byteswap32
  have e0 : (i &&& 0xFF000000) >>> 24 = i / 2 ^ 24 % 2 ^ 8 := by
    rw [show (0xFF000000 : ℕ) = (2 ^ 8 - 1) <<< 24 by decide, and_shifted_mask,
      Nat.shiftRight_eq_div_pow]
    omega
  have e1 : (i &&& 0x00FF0000) >>> 8 = (i / 2 ^ 16 % 2 ^ 8) * 2 ^ 8 := by
    rw [show (0x00FF0000 : ℕ) = (2 ^ 8 - 1) <<< 16 by decide, and_shifted_mask,
      Nat.shiftRight_eq_div_pow]
    omega
  have e2 : (i &&& 0x0000FF00) <<< 8 = (i / 2 ^ 8 % 2 ^ 8) * 2 ^ 16 := by
    rw [show (0x0000FF00 : ℕ) = (2 ^ 8 - 1) <<< 8 by decide, and_shifted_mask,
      Nat.shiftLeft_eq]
    omega
  have e3 : (i &&& 0x000000FF) <<< 24 = (i % 2 ^ 8) * 2 ^ 24 := by
    rw [show (0x000000FF : ℕ) = 2 ^ 8 - 1 by decide, Nat.and_pow_two_sub_one_eq_mod,
      Nat.shiftLeft_eq]
  rw [e0, e1, e2, e3, lor_mul_two_pow_eq_add 8 (by omega),
    lor_mul_two_pow_eq_add 16 (by omega), lor_mul_two_pow_eq_add 24 (by omega)]

theorem byteswap64_eq (i : ℕ) :
    byteswap64 i = i / 2 ^ 56 % 2 ^ 8 + (i / 2 ^ 48 % 2 ^ 8) * 2 ^ 8 +
      (i / 2 ^ 40 % 2 ^ 8) * 2 ^ 16 + (i / 2 ^ 32 % 2 ^ 8) * 2 ^ 24 +
      (i / 2 ^ 24 % 2 ^ 8) * 2 ^ 32 + (i / 2 ^ 16 % 2 ^ 8) * 2 ^ 40 +
      (i / 2 ^ 8 % 2 ^ 8) * 2 ^ 48 + (i % 2 ^ 8) * 2 ^ 56 := by
  unfold byteswap64
  have e0 : (i &&& 0xFF00000000000000) >>> 56 = i / 2 ^ 56 % 2 ^ 8 := by
    rw [show (0xFF00000000000000 : ℕ) = (2 ^ 8 - 1) <<< 56 by decide,
      and_shifted_mask, Nat.shiftRight_eq_div_pow]
    omega
  have e1 : (i &&& 0x00FF000000000000) >>> 40 = (i / 2 ^ 48 % 2 ^ 8) * 2 ^ 8 := by
    rw [show (0x00FF000000000000 : ℕ) = (2 ^ 8 - 1) <<< 48 by decide,
      and_shifted_mask, Nat.shiftRight_eq_div_pow]
    omega
  have e2 : (i &&& 0x0000FF0000000000) >>> 24 = (i / 2 ^ 40 % 2 ^ 8) * 2 ^ 16 := by
    rw [show (0x0000FF0000000000 : ℕ) = (2 ^ 8 - 1) <<< 40 by decide,
      and_shifted_mask, Nat.shiftRight_eq_div_pow]
    omega
  have e3 : (i &&& 0x000000FF00000000) >>> 8 = (i / 2 ^ 32 % 2 ^ 8) * 2 ^ 24 := by
    rw [show (0x000000FF00000000 : ℕ) = (2 ^ 8 - 1) <<< 32 by decide,
      and_shifted_mask, Nat.shiftRight_eq_div_pow]
    omega
  have e4 : (i &&& 0x00000000FF000000) <<< 8 = (i / 2 ^ 24 % 2 ^ 8) * 2 ^ 32 := by
    rw [show (0x00000000FF000000 : ℕ) = (2 ^ 8 - 1) <<< 24 by decide,
      and_shifted_mask, Nat.shiftLeft_eq]
    omega
  have e5 : (i &&& 0x0000000000FF0000) <<< 24 = (i / 2 ^ 16 % 2 ^ 8) * 2 ^ 40 := by
    rw [show (0x0000000000FF0000 : ℕ) = (2 ^ 8 - 1) <<< 16 by decide,
      and_shifted_mask, Nat.shiftLeft_eq]
    omega
  have e6 : (i &&& 0x000000000000FF00) <<< 40 = (i / 2 ^ 8 % 2 ^ 8) * 2 ^ 48 := by
    rw [show (0x000000000000FF00 : ℕ) = (2 ^ 8 - 1) <<< 8 by decide,
      and_shifted_mask, Nat.shiftLeft_eq]
    omega
  have e7 : (i &&& 0x00000000000000FF) <<< 56 = (i % 2 ^ 8) * 2 ^ 56 := by
    rw [show (0x00000000000000FF : ℕ) = 2 ^ 8 - 1 by decide,
      Nat.and_pow_two_sub_one_eq_mod, Nat.shiftLeft_eq]
  rw [e0, e1, e2, e3, e4, e5, e6, e7, lor_mul_two_pow_eq_add 8 (by omega),
    lor_mul_two_pow_eq_add 16 (by omega), lor_mul_two_pow_eq_add 24 (by omega),
    lor_mul_two_pow_eq_add 32 (by omega), lor_mul_two_pow_eq_add 40 (by omega),
    lor_mul_two_pow_eq_add 48 (by omega), lor_mul_two_pow_eq_add 56 (by omega)]

/-! Involution and range lemmas for the byteswap functions. -/

theorem byteswap16_lt (i : ℕ) : byteswap16 i < 2 ^ 16 := by
  rw [byteswap16_eq]; omega

theorem byteswap32_lt (i : ℕ) : byteswap32 i < 2 ^ 32 := by
  rw [byteswap32_eq]; omega

theorem byteswap64_lt (i : ℕ) : byteswap64 i < 2 ^ 64 := by
  rw [byteswap64_eq]; omega

theorem byteswap16_bytes (b0 b1 : ℕ) (h0 : b0 < 2 ^ 8) (h1 : b1 < 2 ^ 8) :
    byteswap16 (b0 + b1 * 2 ^ 8) = b1 + b0 * 2 ^ 8 := by
  rw [byteswap16_eq]; omega

theorem byteswap32_bytes (b0 b1 b2 b3 : ℕ) (h0 : b0 < 2 ^ 8) (h1 : b1 < 2 ^ 8)
    (h2 : b2 < 2 ^ 8) (h3 : b3 < 2 ^ 8) :
    byteswap32 (b0 + b1 * 2 ^ 8 + b2 * 2 ^ 16 + b3 * 2 ^ 24) =
      b3 + b2 * 2 ^ 8 + b1 * 2 ^ 16 + b0 * 2 ^ 24 := by
  rw [byteswap32_eq]; omega

set_option maxHeartbeats 800000 in
theorem byteswap64_bytes (b0 b1 b2 b3 b4 b5 b6 b7 : ℕ) (h0 : b0 < 2 ^ 8)
    (h1 : b1 < 2 ^ 8) (h2 : b2 < 2 ^ 8) (h3 : b3 < 2 ^ 8) (h4 : b4 < 2 ^ 8)
    (h5 : b5 < 2 ^ 8) (h6 : b6 < 2 ^ 8) (h7 : b7 < 2 ^ 8) :
    byteswap64 (b0 + b1 * 2 ^ 8 + b2 * 2 ^ 16 + b3 * 2 ^ 24 + b4 * 2 ^ 32 +
        b5 * 2 ^ 40 + b6 * 2 ^ 48 + b7 * 2 ^ 56) =
      b7 + b6 * 2 ^ 8 + b5 * 2 ^ 16 + b4 * 2 ^ 24 + b3 * 2 ^ 32 + b2 * 2 ^ 40 +
        b1 * 2 ^ 48 + b0 * 2 ^ 56 := by
  rw [byteswap64_eq]
  have d1 : (b0 + b1 * 2 ^ 8 + b2 * 2 ^ 16 + b3 * 2 ^ 24 + b4 * 2 ^ 32 +
      b5 * 2 ^ 40 + b6 * 2 ^ 48 + b7 * 2 ^ 56) / 2 ^ 8 =
      b1 + b2 * 2 ^ 8 + b3 * 2 ^ 16 + b4 * 2 ^ 24 + b5 * 2 ^ 32 + b6 * 2 ^ 40 +
        b7 * 2 ^ 48 := by omega
  have d2 : (b0 + b1 * 2 ^ 8 + b2 * 2 ^ 16 + b3 * 2 ^ 24 + b4 * 2 ^ 32 +
      b5 * 2 ^ 40 + b6 * 2 ^ 48 + b7 * 2 ^ 56) / 2 ^ 16 =
      b2 + b3 * 2 ^ 8 + b4 * 2 ^ 16 + b5 * 2 ^ 24 + b6 * 2 ^ 32 + b7 * 2 ^ 40 := by
    omega
  have d3 : (b0 + b1 * 2 ^ 8 + b2 * 2 ^ 16 + b3 * 2 ^ 24 + b4 * 2 ^ 32 +
      b5 * 2 ^ 40 + b6 * 2 ^ 48 + b7 * 2 ^ 56) / 2 ^ 24 =
      b3 + b4 * 2 ^ 8 + b5 * 2 ^ 16 + b6 * 2 ^ 24 + b7 * 2 ^ 32 := by omega
  have d4 : (b0 + b1 * 2 ^ 8 + b2 * 2 ^ 16 + b3 * 2 ^ 24 + b4 * 2 ^ 32 +
      b5 * 2 ^ 40 + b6 * 2 ^ 48 + b7 * 2 ^ 56) / 2 ^ 32 =
      b4 + b5 * 2 ^ 8 + b6 * 2 ^ 16 + b7 * 2 ^ 24 := by omega
  have d5 : (b0 + b1 * 2 ^ 8 + b2 * 2 ^ 16 + b3 * 2 ^ 24 + b4 * 2 ^ 32 +
      b5 * 2 ^ 40 + b6 * 2 ^ 48 + b7 * 2 ^ 56) / 2 ^ 40 =
      b5 + b6 * 2 ^ 8 + b7 * 2 ^ 16 := by omega
  have d6 : (b0 + b1 * 2 ^ 8 + b2 * 2 ^ 16 + b3 * 2 ^ 24 + b4 * 2 ^ 32 +
      b5 * 2 ^ 40 + b6 * 2 ^ 48 + b7 * 2 ^ 56) / 2 ^ 48 = b6 + b7 * 2 ^ 8 := by
    omega
  have d7 : (b0 + b1 * 2 ^ 8 + b2 * 2 ^ 16 + b3 * 2 ^ 24 + b4 * 2 ^ 32 +
      b5 * 2 ^ 40 + b6 * 2 ^ 48 + b7 * 2 ^ 56) / 2 ^ 56 = b7 := by omega
  rw [d1, d2, d3, d4, d5, d6, d7]
  omega

theorem byteswap16_invol {i : ℕ} (h : i < 2 ^ 16) :
    byteswap16 (byteswap16 i) = i := by
  obtain ⟨b0, b1, hdec, h0, h1⟩ :
      ∃ b0 b1, i = b0 + b1 * 2 ^ 8 ∧ b0 < 2 ^ 8 ∧ b1 < 2 ^ 8 := by
    refine ⟨i % 2 ^ 8, i / 2 ^ 8, ?_, ?_, ?_⟩ <;> omega
  have e1 : byteswap16 i = b1 + b0 * 2 ^ 8 := by
    rw [hdec]; exact byteswap16_bytes b0 b1 h0 h1
  rw [e1, byteswap16_bytes b1 b0 h1 h0]
  omega

theorem byteswap32_invol {i : ℕ} (h : i < 2 ^ 32) :
    byteswap32 (byteswap32 i) = i := by
  obtain ⟨b0, b1, b2, b3, hdec, h0, h1, h2, h3⟩ :
      ∃ b0 b1 b2 b3, i = b0 + b1 * 2 ^ 8 + b2 * 2 ^ 16 + b3 * 2 ^ 24 ∧
        b0 < 2 ^ 8 ∧ b1 < 2 ^ 8 ∧ b2 < 2 ^ 8 ∧ b3 < 2 ^ 8 := by
    refine ⟨i % 2 ^ 8, i / 2 ^ 8 % 2 ^ 8, i / 2 ^ 16 % 2 ^ 8, i / 2 ^ 24, ?_, ?_, ?_, ?_, ?_⟩ <;>
      omega
  have e1 : byteswap32 i = b3 + b2 * 2 ^ 8 + b1 * 2 ^ 16 + b0 * 2 ^ 24 := by
    rw [hdec]; exact byteswap32_bytes b0 b1 b2 b3 h0 h1 h2 h3
  rw [e1, byteswap32_bytes b3 b2 b1 b0 h3 h2 h1 h0]
  omega

theorem byteswap64_invol {i : ℕ} (h : i < 2 ^ 64) :
    byteswap64 (byteswap64 i) = i := by
  obtain ⟨b0, b1, b2, b3, b4, b5, b6, b7, hdec, h0, h1, h2, h3, h4, h5, h6, h7⟩ :
      ∃ b0 b1 b2 b3 b4 b5 b6 b7,
        i = b0 + b1 * 2 ^ 8 + b2 * 2 ^ 16 + b3 * 2 ^ 24 + b4 * 2 ^ 32 +
          b5 * 2 ^ 40 + b6 * 2 ^ 48 + b7 * 2 ^ 56 ∧
        b0 < 2 ^ 8 ∧ b1 < 2 ^ 8 ∧ b2 < 2 ^ 8 ∧ b3 < 2 ^ 8 ∧ b4 < 2 ^ 8 ∧
          b5 < 2 ^ 8 ∧ b6 < 2 ^ 8 ∧ b7 < 2 ^ 8 := by
    refine ⟨i % 2 ^ 8, i / 2 ^ 8 % 2 ^ 8, i / 2 ^ 16 % 2 ^ 8, i / 2 ^ 24 % 2 ^ 8,
      i / 2 ^ 32 % 2 ^ 8, i / 2 ^ 40 % 2 ^ 8, i / 2 ^ 48 % 2 ^ 8, i / 2 ^ 56,
      ?_, ?_, ?_, ?_, ?_, ?_, ?_, ?_, ?_⟩ <;> omega
  have e1 : byteswap64 i = b7 + b6 * 2 ^ 8 + b5 * 2 ^ 16 + b4 * 2 ^ 24 +
      b3 * 2 ^ 32 + b2 * 2 ^ 40 + b1 * 2 ^ 48 + b0 * 2 ^ 56 := by
    rw [hdec]; exact byteswap64_bytes b0 b1 b2 b3 b4 b5 b6 b7 h0 h1 h2 h3 h4 h5 h6 h7
  rw [e1, byteswap64_bytes b7 b6 b5 b4 b3 b2 b1 b0 h7 h6 h5 h4 h3 h2 h1 h0]
  omega

/-! Round-trip lemmas for the byte-order wrappers: construction followed by
the conversion operator is the identity whenever the selected byteswap is
an involution on the value. -/

theorem BigEndian_roundtrip (sw : ℕ → ℕ) (hostBig : Bool) (v : ℕ)
    (h : sw (sw v) = v) :
    BigEndian.toNat sw hostBig (BigEndian.mkVal sw hostBig v) = v := by
  cases hostBig <;> simp [BigEndian.mkVal, BigEndian.toNat, h]

theorem LittleEndian_roundtrip (sw : ℕ → ℕ) (hostBig : Bool) (v : ℕ)
    (h : sw (sw v) = v) :
    LittleEndian.toNat sw hostBig (LittleEndian.mkVal sw hostBig v) = v := by
  cases hostBig <;> simp [LittleEndian.mkVal, LittleEndian.toNat, h]

theorem LE16_roundtrip (hostBig : Bool) {v : ℕ} (h : v < 2 ^ 16) :
    LittleEndian.toNat byteswap16 hostBig (LittleEndian.mkVal byteswap16 hostBig v) = v :=
  LittleEndian_roundtrip byteswap16 hostBig v (byteswap16_invol h)

theorem LE32_roundtrip (hostBig : Bool) {v : ℕ} (h : v < 2 ^ 32) :
    LittleEndian.toNat byteswap32 hostBig (LittleEndian.mkVal byteswap32 hostBig v) = v :=
  LittleEndian_roundtrip byteswap32 hostBig v (byteswap32_invol h)

namespace WaveFile

/-- enum class AudioFormat (src/wavefile.hpp, lines 37-42). -/
inductive AudioFormat where
  | PCM
  | FLOAT
  | ALAW
  | MULAW
deriving DecidableEq

/-- static_cast of an AudioFormat enumerator to uint16_t. -/
def AudioFormat.code : AudioFormat → ℕ
  | .PCM => 0x0001
  | .FLOAT => 0x0003
  | .ALAW => 0x0006
  | .MULAW => 0x0007

/-- struct Header (src/wavefile.hpp, lines 50-79).  Each field holds the
STORED value of its wrapper (BigEndian of uint32_t for the four-character
tags, LittleEndian of uint16_t or uint32_t for the numeric fields), i.e.
the value whose in-memory bytes are exactly the file bytes. -/
structure Header where
  riff_id : ℕ
  riff_chunk_size : ℕ
  wave_id : ℕ
  fmt_id : ℕ
  fmt_size : ℕ
  audio_format : ℕ
  num_channels : ℕ
  sample_rate : ℕ
  byte_rate : ℕ
  block_align : ℕ
  bits_per_sample : ℕ
  data_id : ℕ
  data_chunk_size : ℕ
deriving DecidableEq

/-- sizeof(Header) under pragma pack(2): thirteen fields of sizes
4+4+4+4+4+2+2+4+4+2+2+4+4 with no padding (every member is a single
uint16_t or uint32_t, so member size and alignment never exceed the pack
value), hence 44 bytes. -/
def headerSizeof : ℕ := 44

/-- Header constructor (src/wavefile.hpp, lines 67-78).  The multi-character
literals of the field defaults evaluate left-to-right with the first
character in the most significant byte: RIFF = 0x52494646,
WAVE = 0x57415645, fmt-space = 0x666D7420, data = 0x64617461.
Parameter conversions to uint16_t and uint32_t are the explicit
reductions modulo 2 to the 16 and 32.  Reads of fields inside the body go
through the conversion operator (LittleEndian.toNat), exactly as the C++
reads the already assigned wrapper members. -/
def Header.make (hostBig : Bool) (channels sr bit_depth : ℕ) (format : AudioFormat)
    (sample_count : ℕ) : Header :=
  let channels := channels % 2 ^ 16
  let sr := sr % 2 ^ 32
  let bit_depth := bit_depth % 2 ^ 16
  let sample_count := sample_count % 2 ^ 32
  let num_channels := LittleEndian.mkVal byteswap16 hostBig channels
  let sample_rate := LittleEndian.mkVal byteswap32 hostBig sr
  let bits_per_sample := LittleEndian.mkVal byteswap16 hostBig bit_depth
  let audio_format := LittleEndian.mkVal byteswap16 hostBig format.code
  let bytes_per_sample := (LittleEndian.toNat byteswap16 hostBig bits_per_sample) >>> 3
  let block_align := LittleEndian.mkVal byteswap16 hostBig
    ((LittleEndian.toNat byteswap16 hostBig num_channels) * bytes_per_sample % 2 ^ 16)
  let byte_rate := LittleEndian.mkVal byteswap32 hostBig
    ((LittleEndian.toNat byteswap32 hostBig sample_rate) *
      (LittleEndian.toNat byteswap16 hostBig block_align) % 2 ^ 32)
  let data_chunk_size := LittleEndian.mkVal byteswap32 hostBig
    (sample_count * bytes_per_sample % 2 ^ 32)
  let riff_chunk_size := LittleEndian.mkVal byteswap32 hostBig
    ((headerSizeof + LittleEndian.toNat byteswap32 hostBig data_chunk_size - 8) % 2 ^ 32)
  { riff_id := BigEndian.mkVal byteswap32 hostBig 0x52494646
    riff_chunk_size := riff_chunk_size
    wave_id := BigEndian.mkVal byteswap32 hostBig 0x57415645
    fmt_id := BigEndian.mkVal byteswap32 hostBig 0x666D7420
    fmt_size := LittleEndian.mkVal byteswap32 hostBig 16
    audio_format := audio_format
    num_channels := num_channels
    sample_rate := sample_rate
    byte_rate := byte_rate
    block_align := block_align
    bits_per_sample := bits_per_sample
    data_id := BigEndian.mkVal byteswap32 hostBig 0x64617461
    data_chunk_size := data_chunk_size }

/-- In-memory bytes (lowest address first) of a stored uint16_t value on a
host with byte order hostBig. -/
def memBytes16 (hostBig : Bool) (v : ℕ) : List ℕ :=
  if hostBig then [v / 2 ^ 8 % 2 ^ 8, v % 2 ^ 8]
  else [v % 2 ^ 8, v / 2 ^ 8 % 2 ^ 8]

/-- In-memory bytes (lowest address first) of a stored uint32_t value on a
host with byte order hostBig. -/
def memBytes32 (hostBig : Bool) (v : ℕ) : List ℕ :=
  if hostBig then [v / 2 ^ 24 % 2 ^ 8, v / 2 ^ 16 % 2 ^ 8, v / 2 ^ 8 % 2 ^ 8, v % 2 ^ 8]
  else [v % 2 ^ 8, v / 2 ^ 8 % 2 ^ 8, v / 2 ^ 16 % 2 ^ 8, v / 2 ^ 24 % 2 ^ 8]

/-- The 44 bytes emitted by out_stream.write(&header, sizeof(header))
(src/wavefile.hpp, line 87): the packed fields in declaration order. -/
def headerBytes (hostBig : Bool) (h : Header) : List ℕ :=
  memBytes32 hostBig h.riff_id ++ memBytes32 hostBig h.riff_chunk_size ++
  memBytes32 hostBig h.wave_id ++ memBytes32 hostBig h.fmt_id ++
  memBytes32 hostBig h.fmt_size ++ memBytes16 hostBig h.audio_format ++
  memBytes16 hostBig h.num_channels ++ memBytes32 hostBig h.sample_rate ++
  memBytes32 hostBig h.byte_rate ++ memBytes16 hostBig h.block_align ++
  memBytes16 hostBig h.bits_per_sample ++ memBytes32 hostBig h.data_id ++
  memBytes32 hostBig h.data_chunk_size

/-- State of the std::ofstream destination: whether it opens, and whether
writes to it succeed. -/
structure OFStream where
  openOk : Bool
  writeOk : Bool
deriving DecidableEq

/-- Result of a _write_file call that ran to completion: the returned Bool
and the bytes delivered to the destination. -/
structure WriteOutcome where
  returned : Bool
  bytes : List ℕ
deriving DecidableEq

/-- Model of _write_file (src/wavefile.hpp, lines 82-97).  sampleChunks is
the per-sample byte representation of the sample vector, in order.  When
the stream opens, the code takes the address of samples.front(); on an
empty vector this is undefined behaviour, modelled as none.  The code never
inspects the stream state after opening: it returns true whenever the open
succeeded, and the bytes actually delivered when a write fails are an
unspecified prefix, modelled as the empty output. -/
def writeFileModel (stream : OFStream) (headerBytes : List ℕ)
    (sampleChunks : List (List ℕ)) : Option WriteOutcome :=
  if stream.openOk then
    match sampleChunks with
    | [] => none
    | _ :: _ => some ⟨true, if stream.writeOk then headerBytes ++ sampleChunks.flatten else []⟩
  else
    some ⟨false, []⟩

/-- The header built by the uint8_t overload of write
(src/wavefile.hpp, line 105). -/
def write8Header (hostBig : Bool) (channels sample_rate count : ℕ) : Header :=
  Header.make hostBig channels sample_rate 8 AudioFormat.PCM count

/-- The header built by the int16_t overload of write
(src/wavefile.hpp, line 112). -/
def write16Header (hostBig : Bool) (channels sample_rate count : ℕ) : Header :=
  Header.make hostBig channels sample_rate 16 AudioFormat.PCM count

/-- The header built by the float overload of write
(src/wavefile.hpp, line 119). -/
def write32fHeader (hostBig : Bool) (channels sample_rate count : ℕ) : Header :=
  Header.make hostBig channels sample_rate 32 AudioFormat.FLOAT count

/-- In-memory byte of one uint8_t sample. -/
def uint8Bytes (s : ℕ) : List ℕ := [s % 2 ^ 8]

/-- In-memory bytes of one int16_t sample: the two bytes of its 16-bit
two's-complement representation in host order. -/
def int16Bytes (hostBig : Bool) (s : ℤ) : List ℕ :=
  memBytes16 hostBig ((s % 65536).toNat)

/-- write overload for std::vector of uint8_t (src/wavefile.hpp,
lines 103-107). -/
def write8 (hostBig : Bool) (stream : OFStream) (channels sample_rate : ℕ)
    (samples : List ℕ) : Option WriteOutcome :=
  writeFileModel stream
    (headerBytes hostBig (write8Header hostBig channels sample_rate samples.length))
    (samples.map uint8Bytes)

/-- write overload for std::vector of int16_t (src/wavefile.hpp,
lines 110-114). -/
def write16 (hostBig : Bool) (stream : OFStream) (channels sample_rate : ℕ)
    (samples : List ℤ) : Option WriteOutcome :=
  writeFileModel stream
    (headerBytes hostBig (write16Header hostBig channels sample_rate samples.length))
    (samples.map (int16Bytes hostBig))

/-- write overload for std::vector of float (src/wavefile.hpp,
lines 117-121).  A float sample is carried as its four raw bytes; the IEEE
bit layout itself is opaque to the encoder, which only copies the bytes. -/
def write32f (hostBig : Bool) (stream : OFStream) (channels sample_rate : ℕ)
    (samples : List (List ℕ)) : Option WriteOutcome :=
  writeFileModel stream
    (headerBytes hostBig (write32fHeader hostBig channels sample_rate samples.length))
    samples

end WaveFile

/-! Claim theorems. -/

/-- C1: for every integer value representable at width 8, 16, 32 or 64 bits
and on both big- and little-endian hosts, constructing a BigEndian or
LittleEndian tagged integer from the value and converting it back to a
native integer with the conversion operator yields the value again. -/
theorem tagged_integer_roundtrip (hostBig : Bool) (v8 v16 v32 v64 : ℕ)
    (h8 : v8 < 2 ^ 8) (h16 : v16 < 2 ^ 16) (h32 : v32 < 2 ^ 32) (h64 : v64 < 2 ^ 64) :
    BigEndian.toNat byteswap8 hostBig (BigEndian.mkVal byteswap8 hostBig v8) = v8 ∧
    LittleEndian.toNat byteswap8 hostBig (LittleEndian.mkVal byteswap8 hostBig v8) = v8 ∧
    BigEndian.toNat byteswap16 hostBig (BigEndian.mkVal byteswap16 hostBig v16) = v16 ∧
    LittleEndian.toNat byteswap16 hostBig (LittleEndian.mkVal byteswap16 hostBig v16) = v16 ∧
    BigEndian.toNat byteswap32 hostBig (BigEndian.mkVal byteswap32 hostBig v32) = v32 ∧
    LittleEndian.toNat byteswap32 hostBig (LittleEndian.mkVal byteswap32 hostBig v32) = v32 ∧
    BigEndian.toNat byteswap64 hostBig (BigEndian.mkVal byteswap64 hostBig v64) = v64 ∧
    LittleEndian.toNat byteswap64 hostBig (LittleEndian.mkVal byteswap64 hostBig v64) = v64 :=
  ⟨BigEndian_roundtrip byteswap8 hostBig v8 rfl,
   LittleEndian_roundtrip byteswap8 hostBig v8 rfl,
   BigEndian_roundtrip byteswap16 hostBig v16 (byteswap16_invol h16),
   LittleEndian_roundtrip byteswap16 hostBig v16 (byteswap16_invol h16),
   BigEndian_roundtrip byteswap32 hostBig v32 (byteswap32_invol h32),
   LittleEndian_roundtrip byteswap32 hostBig v32 (byteswap32_invol h32),
   BigEndian_roundtrip byteswap64 hostBig v64 (byteswap64_invol h64),
   LittleEndian_roundtrip byteswap64 hostBig v64 (byteswap64_invol h64)⟩

/-- Witness for C1 at concrete values on a little-endian host. -/
theorem tagged_integer_roundtrip_witness :
    (0xAB : ℕ) < 2 ^ 8 ∧ (0xABCD : ℕ) < 2 ^ 16 ∧ (0x11223344 : ℕ) < 2 ^ 32 ∧
      (0x1122334455667788 : ℕ) < 2 ^ 64 ∧
    (BigEndian.toNat byteswap8 false (BigEndian.mkVal byteswap8 false 0xAB) = 0xAB ∧
     LittleEndian.toNat byteswap8 false (LittleEndian.mkVal byteswap8 false 0xAB) = 0xAB ∧
     BigEndian.toNat byteswap16 false (BigEndian.mkVal byteswap16 false 0xABCD) = 0xABCD ∧
     LittleEndian.toNat byteswap16 false (LittleEndian.mkVal byteswap16 false 0xABCD) = 0xABCD ∧
     BigEndian.toNat byteswap32 false (BigEndian.mkVal byteswap32 false 0x11223344) = 0x11223344 ∧
     LittleEndian.toNat byteswap32 false (LittleEndian.mkVal byteswap32 false 0x11223344) = 0x11223344 ∧
     BigEndian.toNat byteswap64 false
       (BigEndian.mkVal byteswap64 false 0x1122334455667788) = 0x1122334455667788 ∧
     LittleEndian.toNat byteswap64 false
       (LittleEndian.mkVal byteswap64 false 0x1122334455667788) = 0x1122334455667788) :=
  ⟨by decide, by decide, by decide, by decide,
   tagged_integer_roundtrip false 0xAB 0xABCD 0x11223344 0x1122334455667788
     (by decide) (by decide) (by decide) (by decide)⟩

/-- C10: byteswap is an involution on values representable at width 8, 16,
32 or 64 bits. -/
theorem byteswap_involution (i8 i16 i32 i64 : ℕ) (h8 : i8 < 2 ^ 8)
    (h16 : i16 < 2 ^ 16) (h32 : i32 < 2 ^ 32) (h64 : i64 < 2 ^ 64) :
    byteswap8 (byteswap8 i8) = i8 ∧ byteswap16 (byteswap16 i16) = i16 ∧
    byteswap32 (byteswap32 i32) = i32 ∧ byteswap64 (byteswap64 i64) = i64 :=
  ⟨rfl, byteswap16_invol h16, byteswap32_invol h32, byteswap64_invol h64⟩

/-- Witness for C10 at concrete values. -/
theorem byteswap_involution_witness :
    (0x12 : ℕ) < 2 ^ 8 ∧ (0x1234 : ℕ) < 2 ^ 16 ∧ (0xDEADBEEF : ℕ) < 2 ^ 32 ∧
      (0x0123456789ABCDEF : ℕ) < 2 ^ 64 ∧
    (byteswap8 (byteswap8 0x12) = 0x12 ∧ byteswap16 (byteswap16 0x1234) = 0x1234 ∧
     byteswap32 (byteswap32 0xDEADBEEF) = 0xDEADBEEF ∧
     byteswap64 (byteswap64 0x0123456789ABCDEF) = 0x0123456789ABCDEF) :=
  ⟨by decide, by decide, by decide, by decide,
   byteswap_involution 0x12 0x1234 0xDEADBEEF 0x0123456789ABCDEF
     (by decide) (by decide) (by decide) (by decide)⟩

namespace WaveFile

/-- C2: the reference code does NOT satisfy the claim.  On an empty sample
buffer, with a destination that opens, every overload of write evaluates
samples.front() on an empty vector (src/wavefile.hpp, line 90), which is
undefined behaviour; in the model the call has no defined outcome instead
of producing the 44 header bytes. -/
theorem write_empty_buffer_reads_front (hostBig writeOk : Bool) (channels sr : ℕ) :
    write8 hostBig ⟨true, writeOk⟩ channels sr [] = none ∧
    write16 hostBig ⟨true, writeOk⟩ channels sr [] = none ∧
    write32f hostBig ⟨true, writeOk⟩ channels sr [] = none := by
  refine ⟨?_, ?_, ?_⟩ <;> simp [write8, write16, write32f, writeFileModel]

/-- C3 counterexample: a destination that opens but whose writes fail.  The
call still returns true (the code never checks the stream after a write),
refuting the claim that a failed write yields the boolean failure value. -/
theorem write_error_ignored_cex :
    (write16 false ⟨true, false⟩ 1 8000 [0]).map WriteOutcome.returned = some true ∧
    (write16 false ⟨true, false⟩ 1 8000 [0]).map WriteOutcome.returned ≠ some false := by
  decide

/-- C3 amended: for a nonempty sample buffer, every overload of write
completes without exception and returns exactly the open status of the
destination: false when the destination could not be opened, true whenever
it opened, regardless of whether the subsequent writes succeeded. -/
theorem write_reports_open_failure_only (hostBig : Bool) (stream : OFStream)
    (channels sr : ℕ) (s8 : List ℕ) (s16 : List ℤ) (sf : List (List ℕ))
    (h8 : s8 ≠ []) (h16 : s16 ≠ []) (hf : sf ≠ []) :
    (write8 hostBig stream channels sr s8).map WriteOutcome.returned = some stream.openOk ∧
    (write16 hostBig stream channels sr s16).map WriteOutcome.returned = some stream.openOk ∧
    (write32f hostBig stream channels sr sf).map WriteOutcome.returned = some stream.openOk := by
  obtain ⟨o, w⟩ := stream
  obtain ⟨a8, t8, rfl⟩ := List.exists_cons_of_ne_nil h8
  obtain ⟨a16, t16, rfl⟩ := List.exists_cons_of_ne_nil h16
  obtain ⟨af, tf, rfl⟩ := List.exists_cons_of_ne_nil hf
  cases o <;> simp [write8, write16, write32f, writeFileModel]

/-- Witness for the amended C3 at concrete inputs. -/
theorem write_reports_open_failure_only_witness :
    ([37] : List ℕ) ≠ [] ∧ ([37] : List ℤ) ≠ [] ∧ ([[0, 0, 0, 0]] : List (List ℕ)) ≠ [] ∧
    ((write8 false ⟨true, true⟩ 1 44100 [37]).map WriteOutcome.returned =
        some (⟨true, true⟩ : OFStream).openOk ∧
     (write16 false ⟨true, true⟩ 1 44100 [37]).map WriteOutcome.returned =
        some (⟨true, true⟩ : OFStream).openOk ∧
     (write32f false ⟨true, true⟩ 1 44100 [[0, 0, 0, 0]]).map WriteOutcome.returned =
        some (⟨true, true⟩ : OFStream).openOk) :=
  ⟨by decide, by decide, by decide,
   write_reports_open_failure_only false ⟨true, true⟩ 1 44100 [37] [37] [[0, 0, 0, 0]]
     (by decide) (by decide) (by decide)⟩

/-- C4: the header constructed from channels=2, sample_rate=44100,
bit_depth=16, PCM, sample_count=100 has native field values block_align=4,
byte_rate=176400, data_chunk_size=200, riff_chunk_size=236, on both
hosts. -/
theorem header_derived_fields (hostBig : Bool) :
    LittleEndian.toNat byteswap16 hostBig
      (Header.make hostBig 2 44100 16 AudioFormat.PCM 100).block_align = 4 ∧
    LittleEndian.toNat byteswap32 hostBig
      (Header.make hostBig 2 44100 16 AudioFormat.PCM 100).byte_rate = 176400 ∧
    LittleEndian.toNat byteswap32 hostBig
      (Header.make hostBig 2 44100 16 AudioFormat.PCM 100).data_chunk_size = 200 ∧
    LittleEndian.toNat byteswap32 hostBig
      (Header.make hostBig 2 44100 16 AudioFormat.PCM 100).riff_chunk_size = 236 := by
  cases hostBig <;> decide

/-- C5: every constructed header serializes to exactly 44 bytes (the packed
layout has no padding), and its RIFF chunk-size field equals
44 + data_chunk_size - 8 in 32-bit unsigned arithmetic. -/
theorem header_layout_riff_size (hostBig : Bool) (channels sr bit_depth : ℕ)
    (format : AudioFormat) (sample_count : ℕ) :
    (headerBytes hostBig (Header.make hostBig channels sr bit_depth format sample_count)).length = 44 ∧
    LittleEndian.toNat byteswap32 hostBig
        (Header.make hostBig channels sr bit_depth format sample_count).riff_chunk_size =
      (44 + LittleEndian.toNat byteswap32 hostBig
        (Header.make hostBig channels sr bit_depth format sample_count).data_chunk_size - 8) % 2 ^ 32 := by
  constructor
  · cases hostBig <;> simp [headerBytes, memBytes16, memBytes32]
  · simp only [Header.make, headerSizeof]
    rw [LE32_roundtrip hostBig (Nat.mod_lt _ (by norm_num))]

/-- C6: the audio-format tag and bit depth are selected by the static
sample type of the write overload: uint8_t samples give AudioFormat=1 with
8 bits per sample, int16_t samples give AudioFormat=1 with 16 bits per
sample, float samples give AudioFormat=3 with 32 bits per sample. -/
theorem write_format_and_depth (hostBig : Bool) (channels sr n8 n16 nf : ℕ) :
    LittleEndian.toNat byteswap16 hostBig (write8Header hostBig channels sr n8).audio_format = 1 ∧
    LittleEndian.toNat byteswap16 hostBig (write8Header hostBig channels sr n8).bits_per_sample = 8 ∧
    LittleEndian.toNat byteswap16 hostBig (write16Header hostBig channels sr n16).audio_format = 1 ∧
    LittleEndian.toNat byteswap16 hostBig (write16Header hostBig channels sr n16).bits_per_sample = 16 ∧
    LittleEndian.toNat byteswap16 hostBig (write32fHeader hostBig channels sr nf).audio_format = 3 ∧
    LittleEndian.toNat byteswap16 hostBig (write32fHeader hostBig channels sr nf).bits_per_sample = 32 := by
  simp only [write8Header, write16Header, write32fHeader, Header.make, AudioFormat.code]
  cases hostBig <;> decide

/-- The first four serialized header bytes are the bytes of the riff_id
field. -/
theorem headerBytes_riff_pos (hb : Bool) (h : Header) :
    (headerBytes hb h).take 4 = memBytes32 hb h.riff_id := by
  cases hb <;> simp [headerBytes, memBytes32, memBytes16]

/-- Serialized header bytes 8 to 11 are the bytes of the wave_id field. -/
theorem headerBytes_wave_pos (hb : Bool) (h : Header) :
    ((headerBytes hb h).drop 8).take 4 = memBytes32 hb h.wave_id := by
  cases hb <;> simp [headerBytes, memBytes32, memBytes16]

/-- Serialized header bytes 12 to 15 are the bytes of the fmt_id field. -/
theorem headerBytes_fmt_pos (hb : Bool) (h : Header) :
    ((headerBytes hb h).drop 12).take 4 = memBytes32 hb h.fmt_id := by
  cases hb <;> simp [headerBytes, memBytes32, memBytes16]

/-- Serialized header bytes 36 to 39 are the bytes of the data_id field. -/
theorem headerBytes_data_pos (hb : Bool) (h : Header) :
    ((headerBytes hb h).drop 36).take 4 = memBytes32 hb h.data_id := by
  cases hb <;> simp [headerBytes, memBytes32, memBytes16]

/-- The four tag fields of every constructed header hold the constant
stored tag values. -/
theorem make_tag_fields (hostBig : Bool) (channels sr bit_depth : ℕ)
    (format : AudioFormat) (sample_count : ℕ) :
    (Header.make hostBig channels sr bit_depth format sample_count).riff_id =
      BigEndian.mkVal byteswap32 hostBig 0x52494646 ∧
    (Header.make hostBig channels sr bit_depth format sample_count).wave_id =
      BigEndian.mkVal byteswap32 hostBig 0x57415645 ∧
    (Header.make hostBig channels sr bit_depth format sample_count).fmt_id =
      BigEndian.mkVal byteswap32 hostBig 0x666D7420 ∧
    (Header.make hostBig channels sr bit_depth format sample_count).data_id =
      BigEndian.mkVal byteswap32 hostBig 0x64617461 := by
  refine ⟨?_, ?_, ?_, ?_⟩ <;> simp only [Header.make]

/-- C7: on both hosts and for every constructed header, the serialized
bytes at offsets 0, 8, 12 and 36 are the ASCII sequences RIFF, WAVE,
fmt-space and data, in file order. -/
theorem header_tag_bytes (hostBig : Bool) (channels sr bit_depth : ℕ)
    (format : AudioFormat) (sample_count : ℕ) :
    (headerBytes hostBig (Header.make hostBig channels sr bit_depth format sample_count)).take 4 =
      [0x52, 0x49, 0x46, 0x46] ∧
    ((headerBytes hostBig (Header.make hostBig channels sr bit_depth format sample_count)).drop 8).take 4 =
      [0x57, 0x41, 0x56, 0x45] ∧
    ((headerBytes hostBig (Header.make hostBig channels sr bit_depth format sample_count)).drop 12).take 4 =
      [0x66, 0x6D, 0x74, 0x20] ∧
    ((headerBytes hostBig (Header.make hostBig channels sr bit_depth format sample_count)).drop 36).take 4 =
      [0x64, 0x61, 0x74, 0x61] := by
  obtain ⟨hr, hw, hf, hd⟩ :=
    make_tag_fields hostBig channels sr bit_depth format sample_count
  refine ⟨?_, ?_, ?_, ?_⟩
  · rw [headerBytes_riff_pos, hr]
    cases hostBig <;> decide
  · rw [headerBytes_wave_pos, hw]
    cases hostBig <;> decide
  · rw [headerBytes_fmt_pos, hf]
    cases hostBig <;> decide
  · rw [headerBytes_data_pos, hd]
    cases hostBig <;> decide

/-- C8: on a little-endian host, writing the int16_t samples
0, 1, -1, 32767 with channels=1 and sample_rate=8000 to a destination that
opens emits exactly the 52 bytes below: the 44-byte header with
NumChannels=1, SampleRate=8000, BitsPerSample=16, AudioFormat=1 and
Subchunk2Size=8, followed immediately by the 8 little-endian sample bytes,
with no separators or padding. -/
theorem write16_end_to_end :
    write16 false ⟨true, true⟩ 1 8000 [0, 1, -1, 32767] =
      some ⟨true, [0x52, 0x49, 0x46, 0x46, 44, 0, 0, 0, 0x57, 0x41, 0x56, 0x45,
        0x66, 0x6D, 0x74, 0x20, 16, 0, 0, 0, 1, 0, 1, 0, 64, 31, 0, 0,
        128, 62, 0, 0, 2, 0, 16, 0, 0x64, 0x61, 0x74, 0x61, 8, 0, 0, 0,
        0, 0, 1, 0, 255, 255, 255, 127]⟩ ∧
    (write16 false ⟨true, true⟩ 1 8000 [0, 1, -1, 32767]).map
      (fun r => r.bytes.length) = some 52 := by
  constructor <;> decide

/-- C9: header construction is deterministic: equal input tuples give
byte-identical serialized headers. -/
theorem header_encoding_deterministic (hostBig : Bool) (c1 s1 b1 : ℕ)
    (f1 : AudioFormat) (n1 : ℕ) (c2 s2 b2 : ℕ) (f2 : AudioFormat) (n2 : ℕ)
    (h : (c1, s1, b1, f1, n1) = (c2, s2, b2, f2, n2)) :
    headerBytes hostBig (Header.make hostBig c1 s1 b1 f1 n1) =
      headerBytes hostBig (Header.make hostBig c2 s2 b2 f2 n2) := by
  simp only [Prod.mk.injEq] at h
  obtain ⟨rfl, rfl, rfl, rfl, rfl⟩ := h
  rfl

/-- Witness for C9 at a concrete equal pair of tuples. -/
theorem header_encoding_deterministic_witness :
    ((1, 8000, 16, AudioFormat.PCM, 4) =
      ((1 : ℕ), (8000 : ℕ), (16 : ℕ), AudioFormat.PCM, (4 : ℕ))) ∧
    headerBytes false (Header.make false 1 8000 16 AudioFormat.PCM 4) =
      headerBytes false (Header.make false 1 8000 16 AudioFormat.PCM 4) :=
  ⟨by decide,
   header_encoding_deterministic false 1 8000 16 AudioFormat.PCM 4 1 8000 16
     AudioFormat.PCM 4 (by decide)⟩

end WaveFile

end JMP
